import Mathlib

/-!
Verification of the feishu-bot-sdk messaging client and webhook dispatcher.

The development shallowly embeds the Python sources:
  - feishu_sdk/api.py      : MessageApiClient, AsyncMessageApiClient, LarkException
  - feishu_sdk/event.py    : Event, InvalidEventException
  - feishu_sdk/webhook.py  : WebhookHandler
JSON values are modelled by the inductive type Json; the HTTP layer is an
oracle function from requests to responses, and every client operation
returns the list of requests it issued together with its outcome, so that
call traces, error propagation and returned values can be reasoned about.
-/

deriving instance DecidableEq for Except

namespace FeishuSdk

mutual
/-- JSON values (the payloads that flow through the SDK).  Mutual with
explicit list types so that decidable equality can be derived. -/
inductive Json where
  | null
  | bool (b : Bool)
  | num (n : Int)
  | str (s : String)
  | arr (elems : JsonList)
  | obj (fields : JsonFields)
deriving DecidableEq, Repr

inductive JsonList where
  | nil
  | cons (hd : Json) (tl : JsonList)
deriving DecidableEq, Repr

inductive JsonFields where
  | nil
  | cons (key : String) (val : Json) (tl : JsonFields)
deriving DecidableEq, Repr
end

/-- Build a field list from a Lean list literal. -/
def JsonFields.ofList : List (String × Json) → JsonFields
  | [] => .nil
  | (k, v) :: tl => .cons k v (JsonFields.ofList tl)

/-- Convenience constructor for JSON objects. -/
def Json.jobj (l : List (String × Json)) : Json :=
  .obj (JsonFields.ofList l)

/-- First value bound to a key in a field list (Python dict keys are unique). -/
def JsonFields.lookup : JsonFields → String → Option Json
  | .nil, _ => none
  | .cons k v tl, key => if k = key then some v else tl.lookup key

/-- Key lookup on a JSON value: some value when it is an object carrying the
key, none otherwise. -/
def Json.lookup (j : Json) (key : String) : Option Json :=
  match j with
  | .obj fs => fs.lookup key
  | _ => none

/-- Python exceptions that the embedded code can raise. -/
inductive PyError where
  /-- requests.HTTPError / httpx.HTTPStatusError from raise_for_status. -/
  | httpStatusError (status : Nat)
  /-- LarkException(code, msg) from api.py (msg is null when absent). -/
  | larkException (code : Json) (msg : Json)
  /-- InvalidEventException(error_info) from event.py. -/
  | invalidEventException (error_info : String)
  /-- KeyError from a dict subscript. -/
  | keyError (key : String)
  /-- AttributeError from attribute access on an object lacking it. -/
  | attributeError (attr : String)
  /-- TypeError, e.g. concatenating a string with a non-string. -/
  | typeError
  /-- An arbitrary exception raised by user handler code. -/
  | userError (tag : String)
deriving DecidableEq, Repr

/-- Python d.get(key, default) on a value expected to be a dict: returns the
bound value (even when it is null), the default when the key is absent, and
raises AttributeError when the receiver is not a dict. -/
def Json.pyGet (j : Json) (key : String) (dflt : Json) : Except PyError Json :=
  match j with
  | .obj fs => .ok ((fs.lookup key).getD dflt)
  | _ => .error (.attributeError "get")

/-- Python d[key] on a JSON value: KeyError when the key is absent from a
dict, TypeError when subscripting a non-container by a string key. -/
def Json.pySubscript (j : Json) (key : String) : Except PyError Json :=
  match j with
  | .obj fs =>
    match fs.lookup key with
    | some v => .ok v
    | none => .error (.keyError key)
  | _ => .error .typeError

/-- Python equality between a decoded JSON value and an int literal
(True and False compare equal to 1 and 0; other types are never equal). -/
def Json.pyEqInt (j : Json) (m : Int) : Bool :=
  match j with
  | .num n => n == m
  | .bool b => (if b then (1 : Int) else 0) == m
  | _ => false

/-- An outbound HTTP request as issued by the client. -/
structure HttpRequest where
  method : String
  url : String
  headers : List (String × String)
  body : Json
deriving DecidableEq, Repr

/-- An HTTP response with its parsed JSON body. -/
structure HttpResponse where
  status_code : Nat
  body : Json
deriving DecidableEq, Repr

/-- The network, modelled as an oracle from requests to responses. -/
def World : Type := HttpRequest → HttpResponse

/-- resp.raise_for_status(): raises for 4xx and 5xx status codes only. -/
def raise_for_status (resp : HttpResponse) : Except PyError Unit :=
  if 400 ≤ resp.status_code ∧ resp.status_code ≤ 599 then
    .error (.httpStatusError resp.status_code)
  else
    .ok ()

def TENANT_ACCESS_TOKEN_URI : String := "/open-apis/auth/v3/tenant_access_token/internal"

def MESSAGE_URI : String := "/open-apis/im/v1/messages"

/-- MessageApiClient._check_error_response from api.py: for a non-200 status
call raise_for_status, then read code (default -1) from the body and raise
LarkException(code, msg) unless code equals 0. -/
def check_error_response (resp : HttpResponse) : Except PyError Unit := do
  if resp.status_code ≠ 200 then
    raise_for_status resp
  let code ← resp.body.pyGet "code" (.num (-1))
  if code.pyEqInt 0 then
    pure ()
  else
    let msg ← resp.body.pyGet "msg" .null
    .error (.larkException code msg)

/-- The synchronous client state (api.py MessageApiClient).  The stored
token starts as the empty string and is overwritten by authorization; it is
kept as a Json value because the token endpoint may return any JSON. -/
structure MessageApiClient where
  app_id : String
  app_secret : String
  lark_host : String
  tenant_access_token : Json
deriving DecidableEq, Repr

/-- Fresh client as built by MessageApiClient.__init__. -/
def MessageApiClient.mk0 (app_id app_secret lark_host : String) : MessageApiClient :=
  ⟨app_id, app_secret, lark_host, .str ""⟩

/-- The POST request issued by _authorize_tenant_access_token. -/
def authorize_request (c : MessageApiClient) : HttpRequest where
  method := "POST"
  url := c.lark_host ++ TENANT_ACCESS_TOKEN_URI
  headers := []
  body := .jobj [("app_id", .str c.app_id), ("app_secret", .str c.app_secret)]

/-- MessageApiClient._authorize_tenant_access_token: POST credentials to the
token endpoint, check the response, then store tenant_access_token from the
body (null when the key is absent).  Returns the issued requests and the
updated client. -/
def MessageApiClient.authorize_tenant_access_token (c : MessageApiClient) (w : World) :
    List HttpRequest × Except PyError MessageApiClient :=
  let req := authorize_request c
  let resp := w req
  match check_error_response resp with
  | .error e => ([req], .error e)
  | .ok _ =>
    match resp.body.pyGet "tenant_access_token" .null with
    | .error e => ([req], .error e)
    | .ok tok => ([req], .ok { c with tenant_access_token := tok })

/-- The string "Bearer " + token; TypeError when the stored token is not a
string (Python string concatenation). -/
def bearerOf (tok : Json) : Except PyError String :=
  match tok with
  | .str s => .ok ("Bearer " ++ s)
  | _ => .error .typeError

/-- The message POST request built inside MessageApiClient.send once the
Authorization header value is known. -/
def send_request (c : MessageApiClient) (receive_id_type receive_id msg_type content : String)
    (auth : String) : HttpRequest where
  method := "POST"
  url := c.lark_host ++ MESSAGE_URI ++ "?receive_id_type=" ++ receive_id_type
  headers := [("Content-Type", "application/json"), ("Authorization", auth)]
  body := .jobj [("receive_id", .str receive_id), ("content", .str content),
                 ("msg_type", .str msg_type)]

/-- MessageApiClient.send: authorize first, then POST the message body with
the bearer header and return resp.json()["data"]["message_id"]. -/
def MessageApiClient.send (c : MessageApiClient)
    (receive_id_type receive_id msg_type content : String) (w : World) :
    List HttpRequest × Except PyError (MessageApiClient × Json) :=
  match c.authorize_tenant_access_token w with
  | (tr, .error e) => (tr, .error e)
  | (tr, .ok c1) =>
    match bearerOf c1.tenant_access_token with
    | .error e => (tr, .error e)
    | .ok auth =>
      let req := send_request c1 receive_id_type receive_id msg_type content auth
      let resp := w req
      match check_error_response resp with
      | .error e => (tr ++ [req], .error e)
      | .ok _ =>
        match resp.body.pySubscript "data" with
        | .error e => (tr ++ [req], .error e)
        | .ok d =>
          match d.pySubscript "message_id" with
          | .error e => (tr ++ [req], .error e)
          | .ok mid => (tr ++ [req], .ok (c1, mid))

/-- MessageApiClient.send_text_with_open_id: calls send and discards its
value (the method body has no return statement, so it returns None). -/
def MessageApiClient.send_text_with_open_id (c : MessageApiClient)
    (open_id content : String) (w : World) :
    List HttpRequest × Except PyError (MessageApiClient × Json) :=
  match c.send "open_id" open_id "text" content w with
  | (tr, .error e) => (tr, .error e)
  | (tr, .ok (c1, _mid)) => (tr, .ok (c1, .null))

/-- MessageApiClient.send_card_with_open_id: returns send directly. -/
def MessageApiClient.send_card_with_open_id (c : MessageApiClient)
    (open_id content : String) (w : World) :
    List HttpRequest × Except PyError (MessageApiClient × Json) :=
  c.send "open_id" open_id "interactive" content w

/-- The PATCH request built inside send_update_message_card. -/
def update_request (c : MessageApiClient) (message_id updated_card : String)
    (auth : String) : HttpRequest where
  method := "PATCH"
  url := c.lark_host ++ MESSAGE_URI ++ "/" ++ message_id
  headers := [("Content-Type", "application/json"), ("Authorization", auth)]
  body := .jobj [("content", .str updated_card)]

/-- MessageApiClient.send_update_message_card: authorize, then PATCH the new
card content; returns None on success. -/
def MessageApiClient.send_update_message_card (c : MessageApiClient)
    (message_id updated_card : String) (w : World) :
    List HttpRequest × Except PyError (MessageApiClient × Json) :=
  match c.authorize_tenant_access_token w with
  | (tr, .error e) => (tr, .error e)
  | (tr, .ok c1) =>
    match bearerOf c1.tenant_access_token with
    | .error e => (tr, .error e)
    | .ok auth =>
      let req := update_request c1 message_id updated_card auth
      let resp := w req
      match check_error_response resp with
      | .error e => (tr ++ [req], .error e)
      | .ok _ => (tr ++ [req], .ok (c1, .null))

/-- The asynchronous client state (api.py AsyncMessageApiClient).  The
client_active flag records whether a shared httpx.AsyncClient is held by the
context manager; both branches of _request issue the same HTTP exchange. -/
structure AsyncMessageApiClient where
  app_id : String
  app_secret : String
  lark_host : String
  tenant_access_token : Json
  client_active : Bool
deriving DecidableEq, Repr

/-- Fresh async client as built by AsyncMessageApiClient.__init__ (no
shared connection is active). -/
def AsyncMessageApiClient.mk0 (app_id app_secret lark_host : String) : AsyncMessageApiClient :=
  ⟨app_id, app_secret, lark_host, .str "", false⟩

/-- AsyncMessageApiClient._request: use the shared client when one is
active, otherwise a one-shot temporary client; in the oracle model both
issue the same request and observe the same response. -/
def AsyncMessageApiClient.request (c : AsyncMessageApiClient) (w : World)
    (req : HttpRequest) : HttpResponse :=
  if c.client_active then w req else w req

/-- The token POST request built inside the async
_authorize_tenant_access_token. -/
def async_authorize_request (c : AsyncMessageApiClient) : HttpRequest where
  method := "POST"
  url := c.lark_host ++ TENANT_ACCESS_TOKEN_URI
  headers := []
  body := .jobj [("app_id", .str c.app_id), ("app_secret", .str c.app_secret)]

/-- AsyncMessageApiClient._authorize_tenant_access_token (same steps as the
synchronous variant, issued through _request). -/
def AsyncMessageApiClient.authorize_tenant_access_token (c : AsyncMessageApiClient)
    (w : World) : List HttpRequest × Except PyError AsyncMessageApiClient :=
  let req := async_authorize_request c
  let resp := c.request w req
  match check_error_response resp with
  | .error e => ([req], .error e)
  | .ok _ =>
    match resp.body.pyGet "tenant_access_token" .null with
    | .error e => ([req], .error e)
    | .ok tok => ([req], .ok { c with tenant_access_token := tok })

/-- The message POST request built inside AsyncMessageApiClient.send. -/
def async_send_request (c : AsyncMessageApiClient)
    (receive_id_type receive_id msg_type content : String) (auth : String) : HttpRequest where
  method := "POST"
  url := c.lark_host ++ MESSAGE_URI ++ "?receive_id_type=" ++ receive_id_type
  headers := [("Content-Type", "application/json"), ("Authorization", auth)]
  body := .jobj [("receive_id", .str receive_id), ("content", .str content),
                 ("msg_type", .str msg_type)]

/-- AsyncMessageApiClient.send: authorize, POST the message body, return
resp.json()["data"]["message_id"]. -/
def AsyncMessageApiClient.send (c : AsyncMessageApiClient)
    (receive_id_type receive_id msg_type content : String) (w : World) :
    List HttpRequest × Except PyError (AsyncMessageApiClient × Json) :=
  match c.authorize_tenant_access_token w with
  | (tr, .error e) => (tr, .error e)
  | (tr, .ok c1) =>
    match bearerOf c1.tenant_access_token with
    | .error e => (tr, .error e)
    | .ok auth =>
      let req := async_send_request c1 receive_id_type receive_id msg_type content auth
      let resp := c1.request w req
      match check_error_response resp with
      | .error e => (tr ++ [req], .error e)
      | .ok _ =>
        match resp.body.pySubscript "data" with
        | .error e => (tr ++ [req], .error e)
        | .ok d =>
          match d.pySubscript "message_id" with
          | .error e => (tr ++ [req], .error e)
          | .ok mid => (tr ++ [req], .ok (c1, mid))

/-- AsyncMessageApiClient.send_text_with_open_id: returns await send
directly, so the message id propagates to the caller. -/
def AsyncMessageApiClient.send_text_with_open_id (c : AsyncMessageApiClient)
    (open_id content : String) (w : World) :
    List HttpRequest × Except PyError (AsyncMessageApiClient × Json) :=
  c.send "open_id" open_id "text" content w

/-- AsyncMessageApiClient.send_card_with_open_id. -/
def AsyncMessageApiClient.send_card_with_open_id (c : AsyncMessageApiClient)
    (open_id content : String) (w : World) :
    List HttpRequest × Except PyError (AsyncMessageApiClient × Json) :=
  c.send "open_id" open_id "interactive" content w

/-- The PATCH request built inside the async send_update_message_card. -/
def async_update_request (c : AsyncMessageApiClient) (message_id updated_card : String)
    (auth : String) : HttpRequest where
  method := "PATCH"
  url := c.lark_host ++ MESSAGE_URI ++ "/" ++ message_id
  headers := [("Content-Type", "application/json"), ("Authorization", auth)]
  body := .jobj [("content", .str updated_card)]

/-- AsyncMessageApiClient.send_update_message_card: authorize, then PATCH
the new card content; returns None on success. -/
def AsyncMessageApiClient.send_update_message_card (c : AsyncMessageApiClient)
    (message_id updated_card : String) (w : World) :
    List HttpRequest × Except PyError (AsyncMessageApiClient × Json) :=
  match c.authorize_tenant_access_token w with
  | (tr, .error e) => (tr, .error e)
  | (tr, .ok c1) =>
    match bearerOf c1.tenant_access_token with
    | .error e => (tr, .error e)
    | .ok auth =>
      let req := async_update_request c1 message_id updated_card auth
      let resp := c1.request w req
      match check_error_response resp with
      | .error e => (tr ++ [req], .error e)
      | .ok _ => (tr ++ [req], .ok (c1, .null))

mutual
/-- Attribute-style view over JSON values produced by dict_2_obj: dicts
become objects with one attribute per key, lists are converted element-wise,
scalars pass through. -/
inductive PyObj where
  | scalar (j : Json)
  | objv (fields : PyFields)
  | listv (elems : PyList)
deriving DecidableEq, Repr

inductive PyList where
  | nil
  | cons (hd : PyObj) (tl : PyList)
deriving DecidableEq, Repr

inductive PyFields where
  | nil
  | cons (key : String) (val : PyObj) (tl : PyFields)
deriving DecidableEq, Repr
end

mutual
/-- Modelled from the spec: feishu_sdk/utils.py (dict_2_obj and the Obj
wrapper) is not among the provided sources; per the spec the conversion is a
read-only recursive wrapper taking dicts to attribute-style objects,
converting list and tuple elements recursively, and passing scalars
through. -/
def dict_2_obj : Json → PyObj
  | .null => .scalar .null
  | .bool b => .scalar (.bool b)
  | .num n => .scalar (.num n)
  | .str s => .scalar (.str s)
  | .arr xs => .listv (dict_2_obj_list xs)
  | .obj fs => .objv (dict_2_obj_fields fs)

/-- Element-wise conversion of a JSON array. -/
def dict_2_obj_list : JsonList → PyList
  | .nil => .nil
  | .cons hd tl => .cons (dict_2_obj hd) (dict_2_obj_list tl)

/-- Key-wise conversion of a JSON object. -/
def dict_2_obj_fields : JsonFields → PyFields
  | .nil => .nil
  | .cons k v tl => .cons k (dict_2_obj v) (dict_2_obj_fields tl)
end

/-- Lookup in the attribute table of a converted object. -/
def PyFields.lookup : PyFields → String → Option PyObj
  | .nil, _ => none
  | .cons k v tl, key => if k = key then some v else tl.lookup key

/-- Python attribute access obj.attr on a converted view: defined for
objects carrying the attribute, AttributeError otherwise (also on scalars
and lists, which expose no data attributes). -/
def PyObj.getattr (o : PyObj) (attr : String) : Except PyError PyObj :=
  match o with
  | .objv fs =>
    match fs.lookup attr with
    | some v => .ok v
    | none => .error (.attributeError attr)
  | _ => .error (.attributeError attr)

/-- Python equality between a converted view and a string literal: true
exactly for the scalar holding that same string. -/
def PyObj.pyEqStr (o : PyObj) (s : String) : Bool :=
  match o with
  | .scalar (.str t) => t == s
  | _ => false

/-- The parsed event stored by Event.__init__ (event.py): the header and
event sub-dictionaries, each wrapped by dict_2_obj. -/
structure EventV where
  header : PyObj
  event : PyObj
deriving DecidableEq, Repr

/-- Event.__init__ from event.py: read dict_data.get("header") and
dict_data.get("event"); if either is None raise
InvalidEventException("request is not callback event(v2)"), else store the
dict_2_obj views of both. -/
def Event.init (dict_data : Json) : Except PyError EventV := do
  let header ← dict_data.pyGet "header" .null
  let event ← dict_data.pyGet "event" .null
  if header = .null ∨ event = .null then
    .error (.invalidEventException "request is not callback event(v2)")
  else
    .ok ⟨dict_2_obj header, dict_2_obj event⟩

/-- A user handler: receives the parsed event and either returns or raises. -/
def Handler : Type := EventV → Except PyError Unit

/-- The dispatcher state (webhook.py WebhookHandler): the two registries,
message_type to handler and event_type to handler. -/
structure WebhookHandler where
  message_handlers : List (String × Handler)
  event_handlers : List (String × Handler)

/-- Whether a Python value can be hashed: converted lists (and raw list or
dict scalars) are unhashable; null, booleans, numbers, strings and Obj
instances (hashed by identity) are hashable. -/
def PyObj.pyHashable : PyObj → Bool
  | .listv _ => false
  | .scalar (.arr _) => false
  | .scalar (.obj _) => false
  | _ => true

/-- Python hashes a key before any dict membership test or subscript;
an unhashable key raises TypeError there. -/
def pyHashCheck (key : PyObj) : Except PyError Unit :=
  if key.pyHashable then .ok () else .error .typeError

/-- Python key in dict / dict[key] over a registry keyed by strings, after
the hash check has passed: a converted view matches a registry key exactly
when it is that string scalar; any other hashable value (a number, a
boolean, null, an Obj instance hashed by identity) matches no registered
key. -/
def regLookup (reg : List (String × Handler)) (key : PyObj) : Option Handler :=
  match key with
  | .scalar (.str s) => (reg.find? (fun p => p.1 == s)).map (fun p => p.2)
  | _ => none

/-- The HTTP response produced by the Flask view function (jsonify with no
arguments serializes the empty object). -/
structure FlaskResponse where
  status : Nat
  body : Json
deriving DecidableEq, Repr

/-- The background work scheduled by the webhook view before responding:
nothing, a message-processing thread over the raw payload, or a generic
event-processing thread over the event type and the raw payload. -/
inductive Scheduled where
  | idle
  | messageThread (req_data : Json)
  | eventThread (event_type : PyObj) (req_data : Json)
deriving DecidableEq, Repr

/-- WebhookHandler._webhook_handler from webhook.py: echo url_verification
challenges; otherwise parse the event (InvalidEventException becomes the 400
response), read header.event_type and either schedule the message thread,
schedule the generic event thread for a registered type, or acknowledge
with an empty 200.  Any exception other than InvalidEventException (the
KeyError of a missing challenge, the AttributeError of a missing
event_type, the TypeError of an unhashable event_type reaching the registry
membership test) propagates out of the view function. -/
def webhook_handler (h : WebhookHandler) (req_data : Json) :
    Except PyError (FlaskResponse × Scheduled) :=
  match req_data.lookup "type" with
  | some v =>
    if v = .str "url_verification" then
      match req_data.pySubscript "challenge" with
      | .error e => .error e
      | .ok chal => .ok (⟨200, .jobj [("challenge", chal)]⟩, .idle)
    else
      webhook_event_branch h req_data
  | none => webhook_event_branch h req_data
where
  /-- The body of the try block handling non-verification payloads. -/
  webhook_event_branch (h : WebhookHandler) (req_data : Json) :
      Except PyError (FlaskResponse × Scheduled) :=
    match Event.init req_data with
    | .error (.invalidEventException _) =>
      .ok (⟨400, .jobj [("error", .str "Invalid event")]⟩, .idle)
    | .error e => .error e
    | .ok ev =>
      match ev.header.getattr "event_type" with
      | .error e => .error e
      | .ok event_type =>
        if event_type.pyEqStr "im.message.receive_v1" then
          .ok (⟨200, .jobj []⟩, .messageThread req_data)
        else
          match pyHashCheck event_type with
          | .error e => .error e
          | .ok _ =>
            if (regLookup h.event_handlers event_type).isSome then
              .ok (⟨200, .jobj []⟩, .eventThread event_type req_data)
            else
              .ok (⟨200, .jobj []⟩, .idle)

/-- Outcome of a background processing run: the try body completed (with or
without running a handler), or an exception was caught and logged. -/
inductive ProcessResult where
  | completed (handlerRan : Bool)
  | caughtAndLogged (e : PyError)
deriving Repr

/-- The try body of WebhookHandler._process_message: re-parse the event,
read event.message.message_type, and invoke the registered handler when the
membership test (which hashes the key first) finds one for that type. -/
def process_message_body (h : WebhookHandler) (req_data : Json) : Except PyError Bool := do
  let ev ← Event.init req_data
  let message ← ev.event.getattr "message"
  let message_type ← message.getattr "message_type"
  pyHashCheck message_type
  match regLookup h.message_handlers message_type with
  | some handler => do
    handler ev
    pure true
  | none => pure false

/-- WebhookHandler._process_message: the try body above wrapped by the
catch-all except clause that prints the error. -/
def process_message (h : WebhookHandler) (req_data : Json) : ProcessResult :=
  match process_message_body h req_data with
  | .ok ran => .completed ran
  | .error e => .caughtAndLogged e

/-- The try body of WebhookHandler._process_event: re-parse the event and
invoke self.event_handlers[event_type] (the subscript hashes the key first,
so an unhashable key raises TypeError and a missing key raises KeyError,
both inside the try). -/
def process_event_body (h : WebhookHandler) (event_type : PyObj) (req_data : Json) :
    Except PyError Bool := do
  let ev ← Event.init req_data
  pyHashCheck event_type
  match regLookup h.event_handlers event_type with
  | some handler => do
    handler ev
    pure true
  | none => .error (.keyError "event_type")

/-- WebhookHandler._process_event: the try body above wrapped by the
catch-all except clause that prints the error. -/
def process_event (h : WebhookHandler) (event_type : PyObj) (req_data : Json) :
    ProcessResult :=
  match process_event_body h event_type req_data with
  | .ok ran => .completed ran
  | .error e => .caughtAndLogged e

/-! ## Helper definitions and lemmas shared by the verification theorems -/

/-- Drop the client state from an operation outcome, keeping the returned
value: this is what the caller of the Python method observes. -/
def exceptValue {α : Type} : Except PyError (α × Json) → Except PyError Json
  | .error e => .error e
  | .ok (_, v) => .ok v

/-- Whether an Except outcome is a success. -/
def isOkE {α : Type} : Except PyError α → Bool
  | .error _ => false
  | .ok _ => true

/-- The synchronous shadow of an asynchronous client: same credentials,
host and token. -/
def AsyncMessageApiClient.toSync (c : AsyncMessageApiClient) : MessageApiClient :=
  ⟨c.app_id, c.app_secret, c.lark_host, c.tenant_access_token⟩

/-- Rebuild an asynchronous client from a synchronous state and a
connection flag. -/
def toAsync (s : MessageApiClient) (active : Bool) : AsyncMessageApiClient :=
  ⟨s.app_id, s.app_secret, s.lark_host, s.tenant_access_token, active⟩

theorem Json.pyGet_of_lookup {j v d : Json} {k : String}
    (h : j.lookup k = some v) : j.pyGet k d = .ok v := by
  cases j <;> simp [Json.lookup, Json.pyGet] at h ⊢ <;> simp [h]

theorem Json.pySubscript_of_lookup {j v : Json} {k : String}
    (h : j.lookup k = some v) : j.pySubscript k = .ok v := by
  cases j <;> simp [Json.lookup, Json.pySubscript] at h ⊢ <;> simp [h]

/-- Whichever branch of _request runs, the same exchange happens. -/
theorem AsyncMessageApiClient.request_eq (c : AsyncMessageApiClient) (w : World)
    (req : HttpRequest) : c.request w req = w req := by
  simp [AsyncMessageApiClient.request]

/-- A success status never triggers raise_for_status, so the body check
decides the outcome; this unfolds check_error_response at status 200. -/
theorem check_error_response_200 (body : Json) :
    check_error_response ⟨200, body⟩ =
      (do
        let code ← body.pyGet "code" (.num (-1))
        if code.pyEqInt 0 then
          pure ()
        else
          let msg ← body.pyGet "msg" .null
          .error (.larkException code msg)) := by
  simp [check_error_response]

/-! ## C4 -/

/-- C4 counterexample: a response with the non-success redirect status 302
and a zero body code raises nothing at all, because raise_for_status only
fires on 4xx and 5xx statuses; the claim says a transport-level error is
raised for every non-success status. -/
theorem C4_counterexample :
    check_error_response ⟨302, .jobj [("code", .num 0)]⟩ = .ok () ∧ (302 : Nat) ≠ 200 := by
  decide

/-- C4 (amended): for a 200 response whose body carries a non-zero code the
client raises LarkException with exactly that code and the body msg (null
when absent); a transport-level error is raised exactly for statuses 400 to
599; statuses outside that range other than 200 fall through to the body
check instead.  Errors raised by the check propagate to the caller of
authorize, send and update. -/
theorem C4_amended_error_mapping :
    (∀ (fs : JsonFields) (code : Json),
        fs.lookup "code" = some code → code.pyEqInt 0 = false →
        check_error_response ⟨200, .obj fs⟩ =
          .error (.larkException code ((fs.lookup "msg").getD .null))) ∧
    (∀ (s : Nat) (body : Json), 400 ≤ s → s ≤ 599 →
        check_error_response ⟨s, body⟩ = .error (.httpStatusError s)) ∧
    (∀ (c : MessageApiClient) (w : World) (e : PyError),
        check_error_response (w (authorize_request c)) = .error e →
        (c.authorize_tenant_access_token w).2 = .error e) ∧
    (∀ (c : MessageApiClient) (rit rid mt ct : String) (w : World) (e : PyError),
        check_error_response (w (authorize_request c)) = .error e →
        (c.send rit rid mt ct w).2 = .error e) ∧
    (∀ (c : MessageApiClient) (mid card : String) (w : World) (e : PyError),
        check_error_response (w (authorize_request c)) = .error e →
        (c.send_update_message_card mid card w).2 = .error e) := by
  refine ⟨?_, ?_, ?_, ?_, ?_⟩
  · intro fs code hc hz
    rw [check_error_response_200]
    simp [Json.pyGet, Json.lookup, hc, hz, Except.bind, bind]
  · intro s body h4 h5
    have hne : (s ≠ 200) = True := by simp; omega
    have hr : raise_for_status ⟨s, body⟩ = .error (.httpStatusError s) := by
      simp [raise_for_status]
      omega
    simp [check_error_response, hne, hr, Except.bind, bind]
  · intro c w e h
    simp [MessageApiClient.authorize_tenant_access_token, h]
  · intro c rit rid mt ct w e h
    simp [MessageApiClient.send, MessageApiClient.authorize_tenant_access_token, h]
  · intro c mid card w e h
    simp [MessageApiClient.send_update_message_card,
          MessageApiClient.authorize_tenant_access_token, h]

/-- A world whose every response is 200 with the vendor error body used in
the spec example. -/
def wVendorErr : World := fun _ =>
  ⟨200, .jobj [("code", .num 99991), ("msg", .str "invalid app_id")]⟩

/-- C4 witness: the amended mapping evaluated at the spec example
(code 99991, msg invalid app_id), at a 500 response, and at an authorize
call against the erroring world. -/
theorem C4_amended_witness :
    check_error_response ⟨200, .jobj [("code", .num 99991), ("msg", .str "invalid app_id")]⟩ =
      .error (.larkException (.num 99991) (.str "invalid app_id")) ∧
    check_error_response ⟨500, .jobj []⟩ = .error (.httpStatusError 500) ∧
    ((MessageApiClient.mk0 "a" "s" "h").authorize_tenant_access_token wVendorErr).2 =
      .error (.larkException (.num 99991) (.str "invalid app_id")) := by
  refine ⟨?_, ?_, ?_⟩
  · have h := C4_amended_error_mapping.1
      (JsonFields.ofList [("code", .num 99991), ("msg", .str "invalid app_id")])
      (.num 99991) (by decide) (by decide)
    exact h.trans (by decide)
  · exact C4_amended_error_mapping.2.1 500 (.jobj []) (by decide) (by decide)
  · exact C4_amended_error_mapping.2.2.1 (MessageApiClient.mk0 "a" "s" "h") wVendorErr
      (.larkException (.num 99991) (.str "invalid app_id")) (by decide)

/-! ## C10 -/

/-- C10: a 200 response whose body lacks a code key raises LarkException
with the default code -1 and the body msg (null when absent); a 200
response counts as success exactly when the body carries a code key whose
value compares equal to 0. -/
theorem C10_missing_code_defaults_to_error :
    (∀ fs : JsonFields, fs.lookup "code" = none →
        check_error_response ⟨200, .obj fs⟩ =
          .error (.larkException (.num (-1)) ((fs.lookup "msg").getD .null))) ∧
    (∀ body : Json,
        isOkE (check_error_response ⟨200, body⟩) = true ↔
          ∃ v, body.lookup "code" = some v ∧ v.pyEqInt 0 = true) := by
  constructor
  · intro fs h
    rw [check_error_response_200]
    simp [Json.pyGet, Json.lookup, h, Json.pyEqInt, Except.bind, bind]
  · intro body
    cases body <;>
      simp [check_error_response_200, Json.pyGet, Json.lookup, isOkE, Except.bind, bind]
    case obj fs =>
      cases hc : fs.lookup "code" with
      | none => simp [Json.pyEqInt]
      | some v =>
        cases hv : v.pyEqInt 0 <;> simp [hv, isOkE, pure, Except.pure]

/-- C10 witness: a codeless 200 body with a msg raises LarkException(-1,
that msg), and the success criterion evaluated positively and negatively. -/
theorem C10_witness :
    check_error_response ⟨200, .jobj [("msg", .str "m")]⟩ =
      .error (.larkException (.num (-1)) (.str "m")) ∧
    isOkE (check_error_response ⟨200, .jobj [("code", .num 0)]⟩) = true ∧
    isOkE (check_error_response ⟨200, .jobj [("status", .str "ok")]⟩) = false := by
  refine ⟨?_, ?_, ?_⟩
  · have h := C10_missing_code_defaults_to_error.1
      (JsonFields.ofList [("msg", .str "m")]) (by decide)
    exact h.trans (by decide)
  · exact (C10_missing_code_defaults_to_error.2 (.jobj [("code", .num 0)])).mpr
      ⟨.num 0, by decide, by decide⟩
  · have h := C10_missing_code_defaults_to_error.2 (.jobj [("status", .str "ok")])
    revert h
    decide

/-! ## C1 and C5: the authorize-then-send exchange -/

/-- C1: with valid credentials (the token response passes the error check
and carries a string token) one send issues exactly two outbound calls, in
order the token endpoint POST and then the message endpoint POST, and the
Authorization header of the second call is the bearer form of exactly the
token returned by the first call. -/
theorem C1_two_calls_token_then_message (c : MessageApiClient)
    (rit rid mt ct : String) (w : World) (t : String)
    (hok : check_error_response (w (authorize_request c)) = .ok ())
    (htok : (w (authorize_request c)).body.lookup "tenant_access_token" = some (.str t)) :
    (c.send rit rid mt ct w).1 =
      [authorize_request c,
       send_request { c with tenant_access_token := .str t } rit rid mt ct ("Bearer " ++ t)] ∧
    (authorize_request c).url = c.lark_host ++ TENANT_ACCESS_TOKEN_URI ∧
    (send_request { c with tenant_access_token := .str t } rit rid mt ct
        ("Bearer " ++ t)).url = c.lark_host ++ MESSAGE_URI ++ "?receive_id_type=" ++ rit ∧
    ("Authorization", "Bearer " ++ t) ∈
      (send_request { c with tenant_access_token := .str t } rit rid mt ct
        ("Bearer " ++ t)).headers := by
  have hget := Json.pyGet_of_lookup (d := .null) htok
  refine ⟨?_, rfl, rfl, by simp [send_request]⟩
  simp only [MessageApiClient.send, MessageApiClient.authorize_tenant_access_token,
             hok, hget, bearerOf]
  repeat' split
  all_goals rfl

/-- C5: every send starts by re-authorizing, whatever token the client
already stores (the first issued request is always the token POST); under a
successful exchange it then POSTs exactly the body with receive_id, content
and msg_type to the message endpoint carrying the receive_id_type query
parameter and the fresh bearer header, and returns data.message_id of the
message response. -/
theorem C5_send_reauthorizes_and_posts (c : MessageApiClient)
    (rit rid mt ct : String) (w : World) :
    (c.send rit rid mt ct w).1.head? = some (authorize_request c) ∧
    (∀ t : String,
       send_request { c with tenant_access_token := .str t } rit rid mt ct ("Bearer " ++ t) =
         { method := "POST"
           url := c.lark_host ++ MESSAGE_URI ++ "?receive_id_type=" ++ rit
           headers := [("Content-Type", "application/json"), ("Authorization", "Bearer " ++ t)]
           body := .jobj [("receive_id", .str rid), ("content", .str ct),
                          ("msg_type", .str mt)] }) ∧
    (∀ (t : String) (d mid : Json),
       check_error_response (w (authorize_request c)) = .ok () →
       (w (authorize_request c)).body.lookup "tenant_access_token" = some (.str t) →
       check_error_response (w (send_request { c with tenant_access_token := .str t }
           rit rid mt ct ("Bearer " ++ t))) = .ok () →
       (w (send_request { c with tenant_access_token := .str t } rit rid mt ct
           ("Bearer " ++ t))).body.lookup "data" = some d →
       d.lookup "message_id" = some mid →
       c.send rit rid mt ct w =
         ([authorize_request c,
           send_request { c with tenant_access_token := .str t } rit rid mt ct ("Bearer " ++ t)],
          .ok ({ c with tenant_access_token := .str t }, mid))) := by
  refine ⟨?_, fun t => rfl, ?_⟩
  · simp only [MessageApiClient.send, MessageApiClient.authorize_tenant_access_token]
    cases h1 : check_error_response (w (authorize_request c)) with
    | error e => simp [h1]
    | ok u =>
      cases h2 : (w (authorize_request c)).body.pyGet "tenant_access_token" .null with
      | error e => simp [h1, h2]
      | ok tok =>
        simp only [h1, h2]
        cases h3 : bearerOf tok with
        | error e => simp [h3]
        | ok auth =>
          simp only [h3]
          cases h4 : check_error_response
              (w (send_request { c with tenant_access_token := tok } rit rid mt ct auth)) with
          | error e => simp [h4]
          | ok u2 =>
            simp only [h4]
            cases h5 : (w (send_request { c with tenant_access_token := tok }
                rit rid mt ct auth)).body.pySubscript "data" with
            | error e => simp [h5]
            | ok d =>
              simp only [h5]
              cases h6 : d.pySubscript "message_id" with
              | error e => simp [h6]
              | ok mid => simp [h6]
  · intro t d mid hok htok hok2 hdata hmid
    have hget := Json.pyGet_of_lookup (d := .null) htok
    have hdata' := Json.pySubscript_of_lookup hdata
    have hmid' := Json.pySubscript_of_lookup hmid
    simp only [MessageApiClient.send, MessageApiClient.authorize_tenant_access_token,
               hok, hget, bearerOf, hok2, hdata', hmid']
    simp

/-! ## Relating the asynchronous client to the synchronous one -/

theorem toAsync_token (s : MessageApiClient) (b : Bool) :
    (toAsync s b).tenant_access_token = s.tenant_access_token := rfl

theorem async_send_request_toAsync (s : MessageApiClient) (b : Bool)
    (rit rid mt ct auth : String) :
    async_send_request (toAsync s b) rit rid mt ct auth =
      send_request s rit rid mt ct auth := rfl

theorem async_update_request_toAsync (s : MessageApiClient) (b : Bool)
    (mid card auth : String) :
    async_update_request (toAsync s b) mid card auth = update_request s mid card auth := rfl

/-- The async authorization is the sync one up to the connection flag. -/
theorem async_authorize_spec (c : AsyncMessageApiClient) (w : World) :
    c.authorize_tenant_access_token w =
      ((c.toSync.authorize_tenant_access_token w).1,
       Except.map (fun s => toAsync s c.client_active)
         (c.toSync.authorize_tenant_access_token w).2) := by
  have hreq : async_authorize_request c = authorize_request c.toSync := rfl
  simp only [AsyncMessageApiClient.authorize_tenant_access_token,
             MessageApiClient.authorize_tenant_access_token,
             AsyncMessageApiClient.request_eq, hreq]
  cases h1 : check_error_response (w (authorize_request c.toSync)) with
  | error e => simp [Except.map]
  | ok u =>
    cases h2 : (w (authorize_request c.toSync)).body.pyGet "tenant_access_token" .null with
    | error e => simp [Except.map]
    | ok tok => simp [Except.map, toAsync, AsyncMessageApiClient.toSync]

/-- The async send is the sync one up to the connection flag. -/
theorem async_send_spec (c : AsyncMessageApiClient) (rit rid mt ct : String) (w : World) :
    c.send rit rid mt ct w =
      ((c.toSync.send rit rid mt ct w).1,
       Except.map (fun p => (toAsync p.1 c.client_active, p.2))
         (c.toSync.send rit rid mt ct w).2) := by
  simp only [AsyncMessageApiClient.send, MessageApiClient.send, async_authorize_spec]
  cases hA : c.toSync.authorize_tenant_access_token w with
  | mk tr r =>
    cases r with
    | error e => simp [Except.map]
    | ok c1 =>
      simp only [Except.map, toAsync_token]
      cases h3 : bearerOf c1.tenant_access_token with
      | error e => simp [Except.map]
      | ok auth =>
        simp only [async_send_request_toAsync, AsyncMessageApiClient.request_eq]
        cases h4 : check_error_response (w (send_request c1 rit rid mt ct auth)) with
        | error e => simp [Except.map]
        | ok u =>
          cases h5 : (w (send_request c1 rit rid mt ct auth)).body.pySubscript "data" with
          | error e => simp [Except.map]
          | ok d =>
            cases h6 : d.pySubscript "message_id" with
            | error e => simp [h6, Except.map]
            | ok mid => simp [h6, Except.map]

/-- The async card update is the sync one up to the connection flag. -/
theorem async_update_spec (c : AsyncMessageApiClient) (mid card : String) (w : World) :
    c.send_update_message_card mid card w =
      ((c.toSync.send_update_message_card mid card w).1,
       Except.map (fun p => (toAsync p.1 c.client_active, p.2))
         (c.toSync.send_update_message_card mid card w).2) := by
  simp only [AsyncMessageApiClient.send_update_message_card,
             MessageApiClient.send_update_message_card, async_authorize_spec]
  cases hA : c.toSync.authorize_tenant_access_token w with
  | mk tr r =>
    cases r with
    | error e => simp [Except.map]
    | ok c1 =>
      simp only [Except.map, toAsync_token]
      cases h3 : bearerOf c1.tenant_access_token with
      | error e => simp [Except.map]
      | ok auth =>
        simp only [async_update_request_toAsync, AsyncMessageApiClient.request_eq]
        cases h4 : check_error_response (w (update_request c1 mid card auth)) with
        | error e => simp [Except.map]
        | ok u => simp [Except.map]

/-- The sync send_text_with_open_id is send with the returned value
discarded. -/
theorem send_text_spec (c : MessageApiClient) (oid ct : String) (w : World) :
    c.send_text_with_open_id oid ct w =
      ((c.send "open_id" oid "text" ct w).1,
       Except.map (fun p => (p.1, Json.null)) (c.send "open_id" oid "text" ct w).2) := by
  simp only [MessageApiClient.send_text_with_open_id]
  cases h : c.send "open_id" oid "text" ct w with
  | mk tr r => cases r with
    | error e => simp [Except.map]
    | ok p => cases p; simp [Except.map]

theorem exceptValue_map_pair {α β : Type} (f : α → β) (r : Except PyError (α × Json)) :
    exceptValue (Except.map (fun p => (f p.1, p.2)) r) = exceptValue r := by
  cases r with
  | error e => rfl
  | ok p => cases p; rfl

theorem exceptValue_map_null {α : Type} (r : Except PyError (α × Json)) :
    exceptValue (Except.map (fun p => (p.1, Json.null)) r) =
      Except.map (fun _ => Json.null) (exceptValue r) := by
  cases r with
  | error e => rfl
  | ok p => cases p; rfl

theorem map_token_toAsync (active : Bool) (r : Except PyError MessageApiClient) :
    Except.map (fun s2 : AsyncMessageApiClient => s2.tenant_access_token)
      (Except.map (fun s => toAsync s active) r) =
    Except.map (fun s : MessageApiClient => s.tenant_access_token) r := by
  cases r <;> rfl

/-! ## C2 -/

/-- A world answering every token request with a valid token and every
other request with a successful message creation. -/
def wOk : World := fun req =>
  if req.url = "h" ++ TENANT_ACCESS_TOKEN_URI then
    ⟨200, .jobj [("code", .num 0), ("tenant_access_token", .str "T")]⟩
  else
    ⟨200, .jobj [("code", .num 0), ("data", .jobj [("message_id", .str "M")])]⟩

/-- C2 counterexample: against the same successful world, the synchronous
send_text_with_open_id returns None (its body has no return statement)
while the asynchronous variant returns the created message id, so the two
variants do not have identical returned values. -/
theorem C2_counterexample :
    exceptValue ((MessageApiClient.mk0 "a" "s" "h").send_text_with_open_id "ou" "hi" wOk).2 =
      .ok .null ∧
    exceptValue ((AsyncMessageApiClient.mk0 "a" "s" "h").send_text_with_open_id "ou" "hi" wOk).2 =
      .ok (.str "M") ∧
    (Except.ok Json.null : Except PyError Json) ≠ .ok (.str "M") := by
  decide

/-- C2 (amended): for every pair of equally configured clients and every
world, send, sendCard, updateCard and authorize have identical semantics
(the same outbound requests, the same error outcomes, the same returned
value or stored token); sendText issues the same requests with the same
error outcomes, but the synchronous variant discards the message id and
returns None while the asynchronous variant returns it. -/
theorem C2_amended_sync_async_equivalence (a b h : String) (tok : Json) (active : Bool)
    (rit rid mt ct oid text card mid upd : String) (w : World) :
    ((⟨a, b, h, tok⟩ : MessageApiClient).send rit rid mt ct w).1 =
      ((⟨a, b, h, tok, active⟩ : AsyncMessageApiClient).send rit rid mt ct w).1 ∧
    exceptValue ((⟨a, b, h, tok⟩ : MessageApiClient).send rit rid mt ct w).2 =
      exceptValue ((⟨a, b, h, tok, active⟩ : AsyncMessageApiClient).send rit rid mt ct w).2 ∧
    ((⟨a, b, h, tok⟩ : MessageApiClient).send_card_with_open_id oid card w).1 =
      ((⟨a, b, h, tok, active⟩ : AsyncMessageApiClient).send_card_with_open_id oid card w).1 ∧
    exceptValue ((⟨a, b, h, tok⟩ : MessageApiClient).send_card_with_open_id oid card w).2 =
      exceptValue
        ((⟨a, b, h, tok, active⟩ : AsyncMessageApiClient).send_card_with_open_id oid card w).2 ∧
    ((⟨a, b, h, tok⟩ : MessageApiClient).send_update_message_card mid upd w).1 =
      ((⟨a, b, h, tok, active⟩ : AsyncMessageApiClient).send_update_message_card mid upd w).1 ∧
    exceptValue ((⟨a, b, h, tok⟩ : MessageApiClient).send_update_message_card mid upd w).2 =
      exceptValue
        ((⟨a, b, h, tok, active⟩ : AsyncMessageApiClient).send_update_message_card mid upd w).2 ∧
    ((⟨a, b, h, tok⟩ : MessageApiClient).authorize_tenant_access_token w).1 =
      ((⟨a, b, h, tok, active⟩ : AsyncMessageApiClient).authorize_tenant_access_token w).1 ∧
    Except.map (fun s : MessageApiClient => s.tenant_access_token)
        ((⟨a, b, h, tok⟩ : MessageApiClient).authorize_tenant_access_token w).2 =
      Except.map (fun s2 : AsyncMessageApiClient => s2.tenant_access_token)
        ((⟨a, b, h, tok, active⟩ :
            AsyncMessageApiClient).authorize_tenant_access_token w).2 ∧
    ((⟨a, b, h, tok⟩ : MessageApiClient).send_text_with_open_id oid text w).1 =
      ((⟨a, b, h, tok, active⟩ : AsyncMessageApiClient).send_text_with_open_id oid text w).1 ∧
    exceptValue ((⟨a, b, h, tok⟩ : MessageApiClient).send_text_with_open_id oid text w).2 =
      Except.map (fun _ => Json.null)
        (exceptValue
          ((⟨a, b, h, tok, active⟩ :
              AsyncMessageApiClient).send_text_with_open_id oid text w).2) := by
  have hts : (⟨a, b, h, tok, active⟩ : AsyncMessageApiClient).toSync =
      (⟨a, b, h, tok⟩ : MessageApiClient) := rfl
  refine ⟨?_, ?_, ?_, ?_, ?_, ?_, ?_, ?_, ?_, ?_⟩
  · rw [async_send_spec, hts]
  · rw [async_send_spec, hts]
    dsimp only
    rw [exceptValue_map_pair (fun s => toAsync s active)]
  · rw [AsyncMessageApiClient.send_card_with_open_id, async_send_spec, hts]
    rfl
  · rw [AsyncMessageApiClient.send_card_with_open_id, async_send_spec, hts]
    dsimp only
    rw [exceptValue_map_pair (fun s => toAsync s active)]
    rfl
  · rw [async_update_spec, hts]
  · rw [async_update_spec, hts]
    dsimp only
    rw [exceptValue_map_pair (fun s => toAsync s active)]
  · rw [async_authorize_spec, hts]
  · rw [async_authorize_spec, hts]
    dsimp only
    rw [map_token_toAsync]
  · rw [send_text_spec, AsyncMessageApiClient.send_text_with_open_id, async_send_spec, hts]
  · rw [send_text_spec, AsyncMessageApiClient.send_text_with_open_id, async_send_spec, hts]
    dsimp only
    rw [exceptValue_map_pair (fun s => toAsync s active), exceptValue_map_null]

/-- C1 witness: a fresh client sending against the successful world issues
the token POST and then the message POST carrying Bearer T. -/
theorem C1_witness :
    ((MessageApiClient.mk0 "a" "s" "h").send "open_id" "ou" "text" "hi" wOk).1 =
      [authorize_request (MessageApiClient.mk0 "a" "s" "h"),
       send_request { MessageApiClient.mk0 "a" "s" "h" with tenant_access_token := .str "T" }
         "open_id" "ou" "text" "hi" ("Bearer " ++ "T")] :=
  (C1_two_calls_token_then_message (MessageApiClient.mk0 "a" "s" "h")
    "open_id" "ou" "text" "hi" wOk "T" (by decide) (by decide)).1

/-- C5 witness: the full successful exchange evaluated at the concrete
world, producing the stored token T and the returned message id M. -/
theorem C5_witness :
    (MessageApiClient.mk0 "a" "s" "h").send "open_id" "ou" "text" "hi" wOk =
      ([authorize_request (MessageApiClient.mk0 "a" "s" "h"),
        send_request { MessageApiClient.mk0 "a" "s" "h" with tenant_access_token := .str "T" }
          "open_id" "ou" "text" "hi" ("Bearer " ++ "T")],
       .ok ({ MessageApiClient.mk0 "a" "s" "h" with tenant_access_token := .str "T" },
            .str "M")) :=
  (C5_send_reauthorizes_and_posts (MessageApiClient.mk0 "a" "s" "h")
      "open_id" "ou" "text" "hi" wOk).2.2 "T" (.jobj [("message_id", .str "M")]) (.str "M")
    (by decide) (by decide) (by decide) (by decide) (by decide)

/-! ## C3 -/

/-- C3 counterexample: a url_verification payload has neither header nor
event, yet the webhook answers it with the 200 challenge echo, not with the
400 invalid-event response the claim demands for every such payload. -/
theorem C3_counterexample :
    webhook_handler ⟨[], []⟩
        (.jobj [("type", .str "url_verification"), ("challenge", .str "c")]) =
      .ok (⟨200, .jobj [("challenge", .str "c")]⟩, .idle) ∧
    (Json.jobj [("type", .str "url_verification"), ("challenge", .str "c")]).lookup "header" =
      none ∧
    (Json.jobj [("type", .str "url_verification"), ("challenge", .str "c")]).lookup "event" =
      none ∧
    (200 : Nat) ≠ 400 := by
  decide

/-- C3 (amended): every payload that does not select the url_verification
branch and whose header or event key is missing or null gets the 400
invalid-event response, with no background work scheduled. -/
theorem C3_amended_missing_header_event_400 (h : WebhookHandler) (fs : JsonFields)
    (hty : ∀ v, fs.lookup "type" = some v → ¬ v = .str "url_verification")
    (hmiss : (fs.lookup "header").getD .null = .null ∨
             (fs.lookup "event").getD .null = .null) :
    webhook_handler h (.obj fs) =
      .ok (⟨400, .jobj [("error", .str "Invalid event")]⟩, .idle) := by
  have hinit : Event.init (.obj fs) =
      .error (.invalidEventException "request is not callback event(v2)") := by
    rcases hmiss with hm | hm <;>
      simp [Event.init, Json.pyGet, Except.bind, bind, hm]
  have hb : webhook_handler.webhook_event_branch h (.obj fs) =
      .ok (⟨400, .jobj [("error", .str "Invalid event")]⟩, .idle) := by
    simp only [webhook_handler.webhook_event_branch, hinit]
  simp only [webhook_handler, Json.lookup]
  cases h1 : fs.lookup "type" with
  | none => exact hb
  | some v =>
    dsimp only
    rw [if_neg (hty v h1)]
    exact hb

/-- A payload carrying only a non-verification type key (no header, no
event). -/
def rawNoHeader : JsonFields := JsonFields.ofList [("type", .str "event_callback")]

/-- C3 witness: the amended statement evaluated on the no-header payload. -/
theorem C3_amended_witness :
    webhook_handler ⟨[], []⟩ (.obj rawNoHeader) =
      .ok (⟨400, .jobj [("error", .str "Invalid event")]⟩, .idle) := by
  refine C3_amended_missing_header_event_400 ⟨[], []⟩ rawNoHeader ?_ (by decide)
  intro v hv
  rw [show rawNoHeader.lookup "type" = some (.str "event_callback") from by decide] at hv
  cases hv
  decide

/-! ## C9 -/

/-- C9: a url_verification payload without a challenge key makes the
unguarded subscript raise KeyError, so the view function produces an
exception instead of either the 200 echo or the 400 response. -/
theorem C9_url_verification_without_challenge (h : WebhookHandler) (fs : JsonFields)
    (hty : fs.lookup "type" = some (.str "url_verification"))
    (hch : fs.lookup "challenge" = none) :
    webhook_handler h (.obj fs) = .error (.keyError "challenge") := by
  simp only [webhook_handler, Json.lookup, hty]
  simp [Json.pySubscript, hch]

/-- C9 witness. -/
theorem C9_witness :
    webhook_handler ⟨[], []⟩ (.jobj [("type", .str "url_verification")]) =
      .error (.keyError "challenge") :=
  C9_url_verification_without_challenge ⟨[], []⟩
    (JsonFields.ofList [("type", .str "url_verification")]) (by decide) (by decide)

/-! ## C6 -/

/-- C6 counterexample: a successfully parsed event whose header carries an
array event_type falls into neither of the three claimed outcomes: the
dict_2_obj view of an array is a Python list, which is unhashable, so the
registry membership test raises TypeError out of the view function (only
InvalidEventException is caught) instead of answering 200 with nothing
scheduled. -/
theorem C6_counterexample :
    webhook_handler ⟨[], []⟩
        (.jobj [("header", .jobj [("event_type", .arr .nil)]), ("event", .jobj [])]) =
      .error .typeError ∧
    (Except.error PyError.typeError ≠
      (.ok (⟨200, .jobj []⟩, Scheduled.idle) :
        Except PyError (FlaskResponse × Scheduled))) := by
  decide

/-- C6 (amended): for every payload outside the url_verification branch
that parses into an event whose header exposes an event_type, the webhook
responds 200 with the empty object body and schedules the message thread
when the type equals im.message.receive_v1; otherwise, when the value is
hashable, it responds 200 empty and schedules the generic event thread
exactly when the type is a registered key; an unhashable event_type (an
array, converted to a list) makes the membership test raise TypeError,
which escapes the view, so no response is produced. -/
theorem C6_amended_dispatch (h : WebhookHandler) (fs : JsonFields)
    (ev : EventV) (et : PyObj)
    (hty : ∀ v, fs.lookup "type" = some v → ¬ v = .str "url_verification")
    (hparse : Event.init (.obj fs) = .ok ev)
    (het : ev.header.getattr "event_type" = .ok et) :
    webhook_handler h (.obj fs) =
      (if et.pyEqStr "im.message.receive_v1" then
        .ok (⟨200, .jobj []⟩, Scheduled.messageThread (.obj fs))
      else if et.pyHashable then
        .ok (⟨200, .jobj []⟩,
          if (regLookup h.event_handlers et).isSome then Scheduled.eventThread et (.obj fs)
          else Scheduled.idle)
      else .error .typeError) := by
  have hb : webhook_handler.webhook_event_branch h (.obj fs) =
      (if et.pyEqStr "im.message.receive_v1" then
        .ok (⟨200, .jobj []⟩, Scheduled.messageThread (.obj fs))
      else if et.pyHashable then
        .ok (⟨200, .jobj []⟩,
          if (regLookup h.event_handlers et).isSome then Scheduled.eventThread et (.obj fs)
          else Scheduled.idle)
      else .error .typeError) := by
    simp only [webhook_handler.webhook_event_branch, hparse, het, pyHashCheck]
    split_ifs <;> rfl
  simp only [webhook_handler, Json.lookup]
  cases h1 : fs.lookup "type" with
  | none => exact hb
  | some v =>
    dsimp only
    rw [if_neg (hty v h1)]
    exact hb

/-- A registry with one generic event handler under custom.event. -/
def hCustom : WebhookHandler := ⟨[], [("custom.event", fun _ => .ok ())]⟩

/-- A payload for a registered custom event. -/
def rawCustomEvent : JsonFields := JsonFields.ofList
  [("header", .jobj [("event_type", .str "custom.event")]),
   ("event", .jobj [("data", .str "x")])]

/-- C6 witness: the registered custom event (a hashable string type) is
acknowledged with 200 and its generic-event thread is scheduled. -/
theorem C6_amended_witness :
    webhook_handler hCustom (.obj rawCustomEvent) =
      .ok (⟨200, .jobj []⟩,
        .eventThread (.scalar (.str "custom.event")) (.obj rawCustomEvent)) := by
  have h := C6_amended_dispatch hCustom rawCustomEvent
    ⟨dict_2_obj (.jobj [("event_type", .str "custom.event")]),
     dict_2_obj (.jobj [("data", .str "x")])⟩
    (.scalar (.str "custom.event"))
    (by
      intro v hv
      rw [show rawCustomEvent.lookup "type" = none from by decide] at hv
      cases hv)
    (by decide) (by decide)
  rw [h]
  rfl

/-! ## C7 -/

/-- C7: on both background paths, an exception raised by the registered
handler is caught by the catch-all clause and logged, never escaping the
processing function (the HTTP response was already sent by the view). -/
theorem C7_handler_errors_caught_and_logged :
    (∀ (h : WebhookHandler) (raw : Json) (ev : EventV) (msg mty : PyObj)
        (hnd : Handler) (e : PyError),
        Event.init raw = .ok ev →
        ev.event.getattr "message" = .ok msg →
        msg.getattr "message_type" = .ok mty →
        regLookup h.message_handlers mty = some hnd →
        hnd ev = .error e →
        process_message h raw = .caughtAndLogged e) ∧
    (∀ (h : WebhookHandler) (et : PyObj) (raw : Json) (ev : EventV)
        (hnd : Handler) (e : PyError),
        Event.init raw = .ok ev →
        regLookup h.event_handlers et = some hnd →
        hnd ev = .error e →
        process_event h et raw = .caughtAndLogged e) := by
  constructor
  · intro h raw ev msg mty hnd e h1 h2 h3 h4 h5
    cases mty with
    | scalar j =>
      cases j with
      | str s =>
        simp [process_message, process_message_body, pyHashCheck, PyObj.pyHashable,
              Except.bind, bind, h1, h2, h3, h4, h5]
      | null => exact absurd h4 (by simp [regLookup])
      | bool b => exact absurd h4 (by simp [regLookup])
      | num n => exact absurd h4 (by simp [regLookup])
      | arr xs => exact absurd h4 (by simp [regLookup])
      | obj fso => exact absurd h4 (by simp [regLookup])
    | objv fsv => exact absurd h4 (by simp [regLookup])
    | listv l => exact absurd h4 (by simp [regLookup])
  · intro h et raw ev hnd e h1 h2 h3
    cases et with
    | scalar j =>
      cases j with
      | str s =>
        simp [process_event, process_event_body, pyHashCheck, PyObj.pyHashable,
              Except.bind, bind, h1, h2, h3]
      | null => exact absurd h2 (by simp [regLookup])
      | bool b => exact absurd h2 (by simp [regLookup])
      | num n => exact absurd h2 (by simp [regLookup])
      | arr xs => exact absurd h2 (by simp [regLookup])
      | obj fso => exact absurd h2 (by simp [regLookup])
    | objv fsv => exact absurd h2 (by simp [regLookup])
    | listv l => exact absurd h2 (by simp [regLookup])

/-- A handler that always raises. -/
def boomHandler : Handler := fun _ => .error (.userError "boom")

/-- A registry with the raising handler under both paths. -/
def hBoom : WebhookHandler := ⟨[("text", boomHandler)], [("custom.event", boomHandler)]⟩

/-- A text message payload. -/
def rawTextMsg : Json := .jobj
  [("header", .jobj [("event_type", .str "im.message.receive_v1")]),
   ("event", .jobj [("message", .jobj [("message_type", .str "text")])])]

/-- C7 witness: the raising handler is caught and logged on both paths. -/
theorem C7_witness :
    process_message hBoom rawTextMsg = .caughtAndLogged (.userError "boom") ∧
    process_event hBoom (.scalar (.str "custom.event")) rawTextMsg =
      .caughtAndLogged (.userError "boom") := by
  constructor
  · exact C7_handler_errors_caught_and_logged.1 hBoom rawTextMsg
      ⟨dict_2_obj (.jobj [("event_type", .str "im.message.receive_v1")]),
       dict_2_obj (.jobj [("message", .jobj [("message_type", .str "text")])])⟩
      (dict_2_obj (.jobj [("message_type", .str "text")]))
      (.scalar (.str "text")) boomHandler (.userError "boom")
      (by decide) (by decide) (by decide) (by rfl) (by rfl)
  · exact C7_handler_errors_caught_and_logged.2 hBoom (.scalar (.str "custom.event"))
      rawTextMsg
      ⟨dict_2_obj (.jobj [("event_type", .str "im.message.receive_v1")]),
       dict_2_obj (.jobj [("message", .jobj [("message_type", .str "text")])])⟩
      boomHandler (.userError "boom")
      (by decide) (by rfl) (by rfl)

/-! ## C8 -/

/-- C8: on a raw mapping, event construction succeeds exactly when both the
header and the event key are present and non-null, in which case it stores
the dict_2_obj views of both; otherwise it fails with
InvalidEventException, and nothing else about the payload is validated. -/
theorem C8_parse_iff_header_event_present (fs : JsonFields) :
    (∀ hv ev : Json, fs.lookup "header" = some hv → hv ≠ .null →
       fs.lookup "event" = some ev → ev ≠ .null →
       Event.init (.obj fs) = .ok ⟨dict_2_obj hv, dict_2_obj ev⟩) ∧
    (((fs.lookup "header").getD .null = .null ∨ (fs.lookup "event").getD .null = .null) →
       Event.init (.obj fs) =
         .error (.invalidEventException "request is not callback event(v2)")) ∧
    (isOkE (Event.init (.obj fs)) = true ↔
       ((fs.lookup "header").getD .null ≠ .null ∧
        (fs.lookup "event").getD .null ≠ .null)) := by
  refine ⟨?_, ?_, ?_⟩
  · intro hv ev h1 hn1 h2 hn2
    simp [Event.init, Json.pyGet, Except.bind, bind, h1, h2, hn1, hn2]
  · intro hm
    rcases hm with hm | hm <;> simp [Event.init, Json.pyGet, Except.bind, bind, hm]
  · by_cases h1 : (fs.lookup "header").getD .null = .null <;>
      by_cases h2 : (fs.lookup "event").getD .null = .null <;>
      simp [Event.init, Json.pyGet, Except.bind, bind, h1, h2, isOkE]

/-- C8 witness: a valid payload parses into the two views, a null header
fails, and a payload whose header is the number 5 and whose event is the
boolean true still parses (no validation beyond presence). -/
theorem C8_witness :
    Event.init (.jobj [("header", .jobj [("event_type", .str "t")]), ("event", .jobj [])]) =
      .ok ⟨dict_2_obj (.jobj [("event_type", .str "t")]), dict_2_obj (.jobj [])⟩ ∧
    Event.init (.jobj [("header", .null), ("event", .jobj [])]) =
      .error (.invalidEventException "request is not callback event(v2)") ∧
    isOkE (Event.init (.jobj [("header", .num 5), ("event", .bool true)])) = true := by
  refine ⟨?_, ?_, ?_⟩
  · exact (C8_parse_iff_header_event_present
      (JsonFields.ofList [("header", .jobj [("event_type", .str "t")]),
                          ("event", .jobj [])])).1
      (.jobj [("event_type", .str "t")]) (.jobj [])
      (by decide) (by decide) (by decide) (by decide)
  · exact (C8_parse_iff_header_event_present
      (JsonFields.ofList [("header", .null), ("event", .jobj [])])).2.1
      (by decide)
  · exact (C8_parse_iff_header_event_present
      (JsonFields.ofList [("header", .num 5), ("event", .bool true)])).2.2.mpr
      ⟨by decide, by decide⟩

end FeishuSdk
